import Mathlib

/-!
Verification of the UniGuide recommendation pipeline (src/server.js).

The JavaScript source is shallowly embedded: numbers are modelled as `Int`
and `ℚ` (exact arithmetic in place of IEEE doubles), JS strings as Lean
`String`, absent/null fields as `Option`, and JS truthiness tests are made
explicit (`0`, `""`, and `null` are falsy).  Lowercasing is modelled on the
ASCII range (`Char.toLower`); all claim-relevant string data is ASCII, and
the double-encoded Chinese literals of the source are embedded
codepoint-for-codepoint as the runtime sees them.
-/

namespace UniGuide

/-! ## String utilities

`hasPrefixCh needle hay` is `true` when `needle` is an initial segment of
`hay`; `containsSub needle hay` models JavaScript
`hay.includes(needle)` (always true for the empty needle). -/

def hasPrefixCh : List Char → List Char → Bool
  | [], _ => true
  | _ :: _, [] => false
  | a :: as, b :: bs => a == b && hasPrefixCh as bs

def containsSub (needle : List Char) : List Char → Bool
  | [] => needle.isEmpty
  | c :: rest => hasPrefixCh needle (c :: rest) || containsSub needle rest

/-- Lowercased character list of a string, modelling `s.toLowerCase()`. -/
def lowerStr (s : String) : List Char := s.data.map Char.toLower

/-- Model of `s.toLowerCase()` as a string. -/
def toLowerString (s : String) : String := ⟨s.data.map Char.toLower⟩

/-- Model of `hay.includes(needle)` on already-lowercased strings. -/
def includesStr (needle hay : String) : Bool := containsSub needle.data hay.data

/-- Model of `s.split(sep)` for a single-character separator (JS semantics:
consecutive separators yield empty tokens, the empty string yields one
empty token). -/
def splitCh (sep : Char) : List Char → List (List Char)
  | [] => [[]]
  | c :: rest =>
      let r := splitCh sep rest
      if c == sep then [] :: r
      else
        match r with
        | [] => [[c]]
        | h :: t => (c :: h) :: t

/-! ## JS numeric coercion (`College.parseNumber` / `parseFloat`)

`JSVal` covers the inputs relevant to the `College` constructor: `null` /
missing, a JSON number, or a string. -/

inductive JSVal where
  | null : JSVal
  | num : Int → JSVal
  | str : String → JSVal
deriving DecidableEq

/-- JS truthiness for `JSVal`: `null`, `0`, and `""` are falsy. -/
def jsFalsy : JSVal → Bool
  | .null => true
  | .num n => n == 0
  | .str s => s == ""

/-- Model of JS `String(value)` for the values of `JSVal`. -/
def jsToString : JSVal → String
  | .null => "null"
  | .num n => toString n
  | .str s => s

/-- Numeric value of a digit-only character list (`parseInt` on it). -/
def digitsToNat : List Char → Nat
  | [] => 0
  | c :: rest => digitsToNatAux (c.toNat - '0'.toNat) rest
where
  digitsToNatAux (acc : Nat) : List Char → Nat
    | [] => acc
    | c :: rest => digitsToNatAux (acc * 10 + (c.toNat - '0'.toNat)) rest

/-- Model of `College.parseNumber`: falsy input gives `null`; otherwise all
non-digit characters are stripped from `String(value)` and the rest is
parsed with `parseInt` (`NaN`, i.e. no digit at all, gives `null`). -/
def parseNumber (value : JSVal) : Option Int :=
  if jsFalsy value then none
  else
    let digits := (jsToString value).data.filter Char.isDigit
    if digits.isEmpty then none else some (digitsToNat digits)

/-- Model of `College.parseFloat` restricted to null-or-number input (the JSON
numbers the pipeline feeds it): falsy input (including `0`) gives `null`,
any other number is kept. -/
def parseFloatOpt : Option ℚ → Option ℚ
  | none => none
  | some q => if q = 0 then none else some q

/-- Model of JS `data.field || defaultString` for an optional string. -/
def jsOrDefault (o : Option String) (dflt : String) : String :=
  match o with
  | some s => if s = "" then dflt else s
  | none => dflt

/-! ## Data model -/

/-- A constructed `College` record (class `College`). -/
structure College where
  name : String
  location : String
  ranking : Option Int
  tuition : Option Int
  acceptance_rate : Option ℚ
  avg_sat : Option Int
  avg_gpa : Option ℚ
  majors : List String
  description : String
  fit_score : ℚ := 0
deriving DecidableEq

/-- Raw input to the `College` constructor. -/
structure CollegeInput where
  name : Option String := none
  location : Option String := none
  ranking : JSVal := .null
  tuition : JSVal := .null
  acceptance_rate : Option ℚ := none
  avg_sat : JSVal := .null
  avg_gpa : Option ℚ := none
  majors : Option (List String) := none
  description : Option String := none

/-- The `College` constructor. -/
def College.build (d : CollegeInput) : College where
  name := jsOrDefault d.name "Unknown University"
  location := jsOrDefault d.location "Unknown Location"
  ranking := parseNumber d.ranking
  tuition := parseNumber d.tuition
  acceptance_rate := parseFloatOpt d.acceptance_rate
  avg_sat := parseNumber d.avg_sat
  avg_gpa := parseFloatOpt d.avg_gpa
  majors := d.majors.getD []
  description := (d.description.getD "")

/-- Model of `College.isValid`. -/
def College.valid (c : College) : Bool :=
  c.name != "" && c.name != "Unknown University" &&
  c.location != "" && c.location != "Unknown Location"

/-- The per-connection `UserProfile`; `budget` holds
`budget.max_annual_tuition`. -/
structure UserProfile where
  gpa : Option ℚ := none
  sat_score : Option Int := none
  act_score : Option Int := none
  interests : List String := []
  budget : Option Int := none
  location_preference : List String := []
  major_preference : List String := []

def UserProfile.empty : UserProfile := {}

/-! ## Fit scorer (`FitScoringTool`) -/

/-- JS truthiness of an optional rational. -/
def truthyQ : Option ℚ → Bool
  | none => false
  | some x => x != 0

/-- JS truthiness of an optional integer. -/
def truthyI : Option Int → Bool
  | none => false
  | some x => x != 0

/-- Model of `calculateAcademicFit`: `null` unless the profile has a (truthy) GPA
or SAT; each sub-factor contributes only when both sides are present. -/
def calculateAcademicFit (c : College) (p : UserProfile) : Option ℚ :=
  if !truthyQ p.gpa && !truthyI p.sat_score then none
  else
    let g : ℚ × Nat :=
      if truthyQ p.gpa && truthyQ c.avg_gpa then
        (max 0 (1 - |c.avg_gpa.getD 0 - p.gpa.getD 0| / 2), 1)
      else (0, 0)
    let s : ℚ × Nat :=
      if truthyI p.sat_score && truthyI c.avg_sat then
        (max 0 (1 - |((c.avg_sat.getD 0 : ℚ)) - ((p.sat_score.getD 0 : ℚ))| / 400), 1)
      else (0, 0)
    if g.2 + s.2 > 0 then some ((g.1 + s.1) / ((g.2 + s.2 : ℕ) : ℚ)) else none

/-- Model of `calculateMajorFit`: fraction of the user's majors with a
case-insensitive substring match (either direction) among the college's
majors. -/
def calculateMajorFit (c : College) (p : UserProfile) : Option ℚ :=
  if p.major_preference.isEmpty || c.majors.isEmpty then none
  else
    let matchCount := p.major_preference.countP (fun userMajor =>
      c.majors.any (fun collegeMajor =>
        containsSub (lowerStr userMajor) (lowerStr collegeMajor) ||
        containsSub (lowerStr collegeMajor) (lowerStr userMajor)))
    some ((matchCount : ℚ) / (p.major_preference.length : ℚ))

/-- Model of `calculateLocationFit`: binary match of any preferred location against
the college location. -/
def calculateLocationFit (c : College) (p : UserProfile) : Option ℚ :=
  if p.location_preference.isEmpty then none
  else if p.location_preference.any (fun loc =>
      containsSub (lowerStr loc) (lowerStr c.location)) then some 1
  else some 0

/-- Model of `calculateAffordabilityScore`: `null` unless both a (truthy) budget and
a (truthy) tuition exist. -/
def calculateAffordabilityScore (c : College) (p : UserProfile) : Option ℚ :=
  if !truthyI p.budget || !truthyI c.tuition then none
  else
    let budget : ℚ := ((p.budget.getD 0 : ℤ) : ℚ)
    let tuition : ℚ := ((c.tuition.getD 0 : ℤ) : ℚ)
    if tuition ≤ budget then some (min 1 (budget / tuition - 1/2))
    else some (max 0 (1 - (tuition - budget) / budget))

/-- One step of the weighted accumulation in `scoreCollege`: an applicable
dimension adds its weighted score to the numerator and its weight to the
denominator. -/
def addDim (acc : ℚ × ℚ) (score : Option ℚ) (w : ℚ) : ℚ × ℚ :=
  match score with
  | some s => (acc.1 + s * w, acc.2 + w)
  | none => acc

/-- Model of `FitScoringTool.scoreCollege`: weighted sum over the applicable
dimensions divided by the sum of their weights, `0.5` when none apply. -/
def scoreCollege (c : College) (p : UserProfile) : ℚ :=
  let acc := addDim (addDim (addDim (addDim ((0 : ℚ), (0 : ℚ))
    (calculateAcademicFit c p) (4/10))
    (calculateMajorFit c p) (3/10))
    (calculateLocationFit c p) (2/10))
    (calculateAffordabilityScore c p) (1/10)
  if acc.2 > 0 then acc.1 / acc.2 else 1/2

/-! ## Search cache (`RobustUniversitySearch` cache) -/

/-- One raw search result; `college_data` is populated only by the static
dataset provider. -/
structure RawResult where
  title : String
  snippet : String
  url : String
  college_data : Option College := none
deriving DecidableEq

/-- A cache entry (`{data, timestamp}`). -/
structure CacheEntry where
  data : List RawResult
  timestamp : Int
deriving DecidableEq

/-- The cache map, keyed by lowercased query string. -/
def Cache := List (String × CacheEntry)

/-- Model of `this.cacheTimeout = 10 * 60 * 1000`. -/
def cacheTimeout : Int := 10 * 60 * 1000

/-- Model of `Map.get`. -/
def cacheLookup (key : String) (c : Cache) : Option CacheEntry :=
  List.lookup key c

/-- Model of `Map.delete` (a no-op when the key is absent). -/
def cacheErase (key : String) (c : Cache) : Cache :=
  List.filter (fun kv => kv.1 != key) c

/-- Model of `getFromCache`: returns the data of a fresh entry; otherwise deletes
the key and returns `null`.  The result pairs the returned value with the
cache state after the call. -/
def getFromCache (c : Cache) (now : Int) (key : String) :
    Option (List RawResult) × Cache :=
  match cacheLookup key c with
  | some e =>
      if now - e.timestamp < cacheTimeout then (some e.data, c)
      else (none, cacheErase key c)
  | none => (none, cacheErase key c)

/-- Model of `setCache`: stores `{data, timestamp: Date.now()}` under the key. -/
def setCache (c : Cache) (now : Int) (key : String) (data : List RawResult) :
    Cache :=
  (key, ⟨data, now⟩) :: cacheErase key c

/-! ## Search provider chain (`searchUniversities`)

A provider call either throws (`err`) or returns a result list (`ok`);
the chain inspects these outcomes in order. -/

inductive ProviderOutcome where
  | ok : List RawResult → ProviderOutcome
  | err : ProviderOutcome

/-- A provider outcome that makes the chain move on to the next provider:
a thrown error or an empty result list. -/
def providerFailedOrEmpty : ProviderOutcome → Bool
  | .ok r => r.isEmpty
  | .err => true

/-- The fallback loop of `searchUniversities`: the first provider whose
call succeeds with a non-empty list wins.  The second component counts how
many providers were invoked. -/
def runChain : List ProviderOutcome → List RawResult × Nat
  | [] => ([], 0)
  | .ok r :: rest =>
      if r.isEmpty then
        let t := runChain rest
        (t.1, t.2 + 1)
      else (r, 1)
  | .err :: rest =>
      let t := runChain rest
      (t.1, t.2 + 1)

/-- Model of `searchUniversities`: check the cache under the lowercased query; on a
miss run the provider chain and cache a non-empty winner.  Returns the
result list and the cache state after the call. -/
def searchUniversities (c : Cache) (now : Int) (query : String)
    (providers : List ProviderOutcome) : List RawResult × Cache :=
  let cacheKey := toLowerString query
  let hit := getFromCache c now cacheKey
  match hit.1 with
  | some d => (d, hit.2)
  | none =>
      let results := (runChain providers).1
      if results.isEmpty then ([], hit.2)
      else (results, setCache hit.2 now cacheKey results)

/-! ## Static seed dataset and `staticDataSearch` -/

/-- The ten seed colleges of `loadStaticCollegeData`, as `College`
records (every seed field is present and well-typed). -/
def staticCollegeData : List College := [
  { name := "Massachusetts Institute of Technology", location := "Cambridge, MA",
    ranking := some 2, tuition := some 57590, acceptance_rate := some (4/100),
    avg_sat := some 1520, avg_gpa := some (417/100),
    majors := ["Computer Science", "Engineering", "Physics", "Mathematics"],
    description := "Leading technology and engineering research university" },
  { name := "Stanford University", location := "Stanford, CA",
    ranking := some 6, tuition := some 56169, acceptance_rate := some (4/100),
    avg_sat := some 1505, avg_gpa := some (418/100),
    majors := ["Computer Science", "Engineering", "Business", "Medicine"],
    description := "Premier research university in Silicon Valley" },
  { name := "Harvard University", location := "Cambridge, MA",
    ranking := some 3, tuition := some 54269, acceptance_rate := some (3/100),
    avg_sat := some 1515, avg_gpa := some (418/100),
    majors := ["Liberal Arts", "Medicine", "Law", "Business"],
    description := "Prestigious Ivy League institution" },
  { name := "California Institute of Technology", location := "Pasadena, CA",
    ranking := some 9, tuition := some 58680, acceptance_rate := some (6/100),
    avg_sat := some 1545, avg_gpa := some (419/100),
    majors := ["Engineering", "Physics", "Computer Science", "Chemistry"],
    description := "Elite science and engineering focused institute" },
  { name := "University of California, Berkeley", location := "Berkeley, CA",
    ranking := some 22, tuition := some 14312, acceptance_rate := some (11/100),
    avg_sat := some 1405, avg_gpa := some (389/100),
    majors := ["Computer Science", "Engineering", "Business", "Liberal Arts"],
    description := "Top public research university" },
  { name := "Carnegie Mellon University", location := "Pittsburgh, PA",
    ranking := some 25, tuition := some 59864, acceptance_rate := some (11/100),
    avg_sat := some 1480, avg_gpa := some (387/100),
    majors := ["Computer Science", "Engineering", "Robotics", "Drama"],
    description := "Premier computer science and engineering programs" },
  { name := "University of Michigan", location := "Ann Arbor, MI",
    ranking := some 21, tuition := some 15948, acceptance_rate := some (18/100),
    avg_sat := some 1435, avg_gpa := some (388/100),
    majors := ["Engineering", "Business", "Medicine", "Liberal Arts"],
    description := "Large public research university with strong programs" },
  { name := "Georgia Institute of Technology", location := "Atlanta, GA",
    ranking := some 38, tuition := some 12852, acceptance_rate := some (16/100),
    avg_sat := some 1465, avg_gpa := some (404/100),
    majors := ["Engineering", "Computer Science", "Business"],
    description := "Top engineering and technology programs" },
  { name := "University of Texas at Austin", location := "Austin, TX",
    ranking := some 38, tuition := some 11448, acceptance_rate := some (29/100),
    avg_sat := some 1355, avg_gpa := some (371/100),
    majors := ["Business", "Engineering", "Liberal Arts", "Computer Science"],
    description := "Large public university with diverse strong programs" },
  { name := "University of Washington", location := "Seattle, WA",
    ranking := some 59, tuition := some 12076, acceptance_rate := some (48/100),
    avg_sat := some 1315, avg_gpa := some (375/100),
    majors := ["Computer Science", "Medicine", "Engineering", "Business"],
    description := "Strong research programs especially in tech and medicine" }]

/-- The searchable text of one seed college:
`name location majors.join(sp) description`, lowercased. -/
def collegeSearchText (c : College) : String :=
  toLowerString (c.name ++ " " ++ c.location ++ " " ++
    String.intercalate " " c.majors ++ " " ++ c.description)

/-- Model of `name.toLowerCase().replace(whitespace, empty)` for the synthesized
`.edu` URL. -/
def condenseName (s : String) : String :=
  ⟨(toLowerString s).data.filter (fun ch => !ch.isWhitespace)⟩

/-- Model of `staticDataSearch`: keep the seed colleges whose search text contains
any token of the lowercased query, and wrap them as `RawResult`s carrying
`college_data` directly. -/
def staticDataSearch (query : String) : List RawResult :=
  let keywords := splitCh ' ' (toLowerString query).data
  let matched := staticCollegeData.filter (fun college =>
    keywords.any (fun kw => containsSub kw (collegeSearchText college).data))
  matched.map (fun college =>
    { title := college.name,
      snippet := college.description ++ " Located in " ++ college.location ++
        ". Tuition: $" ++ toString (college.tuition.getD 0),
      url := "https://www." ++ condenseName college.name ++ ".edu",
      college_data := some college })

/-! ## Intent detection (`detectIntent`) -/

inductive IntentType where
  | college_match
  | essay_revise
  | schedule_plan
  | general_qa
deriving DecidableEq

/-- The bilingual keyword table.  The non-ASCII literals are embedded
codepoint-for-codepoint as they appear in the source file (the file holds
double-encoded text, so these are the exact runtime strings). -/
def intentKeywords : IntentType → List String
  | .college_match =>
      ["recommend", "university", "college", "match", "find", "search", "suggest", "\u00E6\u00A8\u00E8", "\u00E5\u00A4\u00A7\u00E5\u00AD\u00A6", "\u00E5\u00AD\u00A6\u00E6\u00A0\u00A1", "\u00E5\u0152\u00B9\u00E9\u2026", "\u00E5\u00AF\u00BB\u00E6\u2030\u00BE"]
  | .essay_revise =>
      ["essay", "personal statement", "application", "writing", "\u00E8\u00AE\u00BA\u00E6\u2013\u2021", "\u00E6\u2013\u2021\u00E4\u00B9\u00A6", "\u00E7\u201D\u00B3\u00E8\u00AF\u00B7"]
  | .schedule_plan =>
      ["deadline", "timeline", "schedule", "plan", "\u00E6\u02C6\u00AA\u00E6\u00AD\u00A2", "\u00E6\u2014\u00B6\u00E9\u2014\u00B4", "\u00E8\u00AE\u00A1\u00E5\u02C6\u2019", "\u00E8\u00A7\u201E\u00E5\u02C6\u2019"]
  | .general_qa =>
      ["help", "advice", "question", "\u00E5\u00B8\u00AE\u00E5\u0160\u00A9", "\u00E5\u00BB\u00BA\u00E8\u00AE\u00AE", "\u00E9\u2014\u00AE\u00E9\u00A2\u02DC"]


/-- Keyword score of one intent: how many of its keywords the lowercased
message contains. -/
def intentScore (message : String) (it : IntentType) : Nat :=
  ((intentKeywords it).filter (fun kw =>
    containsSub (lowerStr kw) (lowerStr message))).length

/-- The `reduce` over the score table: successive pairwise comparison
keeping the earlier entry only on a strict win (ties go to the later
entry), starting from `college_match`. -/
def topScoredIntent (message : String) : IntentType :=
  [IntentType.essay_revise, IntentType.schedule_plan,
   IntentType.general_qa].foldl
    (fun a b => if intentScore message a > intentScore message b then a else b)
    IntentType.college_match

/-- Model of `detectIntent`: force `college_match` when it scored at all or when
every intent scored zero; otherwise take the top-scored intent. -/
def detectIntent (message : String) : IntentType :=
  if intentScore message .college_match > 0 ∨
      (max (max (max
        (intentScore message .college_match)
        (intentScore message .essay_revise))
        (intentScore message .schedule_plan))
        (intentScore message .general_qa)) = 0 then
    IntentType.college_match
  else topScoredIntent message

/-! ## Profile merge (`updateProfile`) -/

/-- The candidate info object extracted from one message. -/
structure ExtractedInfo where
  gpa : Option ℚ := none
  sat_score : Option Int := none
  act_score : Option Int := none
  interests : Option (List String) := none
  location_preference : Option (List String) := none
  budget : Option Int := none

/-- Case-insensitive string equality (`a.toLowerCase() === b.toLowerCase()`). -/
def lowEq (a b : String) : Bool := lowerStr a == lowerStr b

/-- Union step for preference arrays: keep the new entries that do not
case-insensitively duplicate an existing one, and append them. -/
def mergeNames (existing new : List String) : List String :=
  existing ++ new.filter (fun x => !(existing.any (fun e => lowEq e x)))

/-- Model of `updateProfile`: each field merges independently; numeric fields are
gated by truthiness and their documented range, arrays by the
case-insensitive union, budget by truthiness of `max_annual_tuition`. -/
def updateProfile (p : UserProfile) (info : ExtractedInfo) : UserProfile :=
  let p1 := match info.gpa with
    | some g => if g ≠ 0 ∧ 0 ≤ g ∧ g ≤ 4 then { p with gpa := some g } else p
    | none => p
  let p2 := match info.sat_score with
    | some s => if s ≠ 0 ∧ 400 ≤ s ∧ s ≤ 1600 then { p1 with sat_score := some s } else p1
    | none => p1
  let p3 := match info.act_score with
    | some a => if a ≠ 0 ∧ 1 ≤ a ∧ a ≤ 36 then { p2 with act_score := some a } else p2
    | none => p2
  let p4 := match info.interests with
    | some l => { p3 with major_preference := mergeNames p3.major_preference l }
    | none => p3
  let p5 := match info.location_preference with
    | some l => { p4 with location_preference := mergeNames p4.location_preference l }
    | none => p4
  let p6 := match info.budget with
    | some b => if b ≠ 0 then { p5 with budget := some b } else p5
    | none => p5
  p6

/-! ## Budget filter step of `processCollegeMatch` -/

/-- The budget filter applied after scoring: colleges with no (truthy)
tuition pass, colleges with tuition within the budget pass; if nothing
passes, the unfiltered list is kept. -/
def budgetFilterStep (colleges : List College) (budget : Option Int) :
    List College :=
  match budget with
  | some b =>
      if b ≠ 0 then
        let budgetFiltered := colleges.filter (fun c =>
          !truthyI c.tuition || (c.tuition.getD 0 ≤ b))
        if budgetFiltered.length > 0 then budgetFiltered else colleges
      else colleges
  | none => colleges

/-- The budget filter as the claim words it: restrict to the colleges
whose tuition is within the budget, keeping the unfiltered list only when
that restriction would be empty. -/
def budgetFilterStepClaim (colleges : List College) (budget : Option Int) :
    List College :=
  match budget with
  | some b =>
      if b ≠ 0 then
        let budgetFiltered := colleges.filter (fun c =>
          match c.tuition with
          | some t => decide (t ≤ b)
          | none => false)
        if budgetFiltered.length > 0 then budgetFiltered else colleges
      else colleges
  | none => colleges

/-! ## `processMessage` failure handling -/

/-- One turn of conversation history. -/
structure ChatMsg where
  role : String
  content : String
deriving DecidableEq

/-- The fixed apology of the outermost `catch` (embedded
codepoint-for-codepoint from the source file). -/
def errorResponse : String :=
  "\u00E6\u0160\u00B1\u00E6\u00AD\u2030\u00EF\u00BC\u0152\u00E5\u00A4\u201E\u00E7\u2020\u00E6\u201A\u00A8\u00E7\u0161\u201E\u00E8\u00AF\u00B7\u00E6\u00B1\u201A\u00E6\u2014\u00B6\u00E5\u2021\u00BA\u00E7\u00B0\u00E4\u00BA\u2020\u00E9\u2014\u00AE\u00E9\u00A2\u02DC\u00E3\u20AC\u201A\u00E8\u00AF\u00B7\u00E7\u00A8\u00E5\u00E5\u2020\u00E8\u00AF\u2022\u00E6\u02C6\u2013\u00E9\u2021\u00E6\u2013\u00B0\u00E6\u00E8\u00BF\u00B0\u00E6\u201A\u00A8\u00E7\u0161\u201E\u00E9\u0153\u20AC\u00E6\u00B1\u201A\u00E3\u20AC\u201A"

/-- Result of one `processMessage` call: the history after the call, the
messages sent through `sendResponse`, and the returned response. -/
structure MsgResult where
  history : List ChatMsg
  sent : List String
  response : String
deriving DecidableEq

/-- Model of `processMessage`: the user turn is recorded first; the per-intent
processing either yields a response (`Except.ok`) or lets an exception
escape (`Except.error`), which the outermost handler converts into the
fixed apology.  On success the assistant turn is recorded and the history
trimmed to its last 12 entries. -/
def processMessage (hist : List ChatMsg) (userMessage : String)
    (outcome : Except Unit String) : MsgResult :=
  let hist1 := hist ++ [⟨"user", userMessage⟩]
  match outcome with
  | .ok response =>
      let hist2 := hist1 ++ [⟨"assistant", response⟩]
      let hist3 := if hist2.length > 12 then hist2.drop (hist2.length - 12) else hist2
      ⟨hist3, [response], response⟩
  | .error _ => ⟨hist1, [errorResponse], errorResponse⟩

/-! ## Helper lemmas -/

theorem parseNumber_nonneg (v : JSVal) : ∀ n, parseNumber v = some n → 0 ≤ n := by
  intro n h
  unfold parseNumber at h
  split at h
  · exact absurd h (by simp)
  · dsimp only at h
    split at h
    · exact absurd h (by simp)
    · simp only [Option.some.injEq] at h
      omega

theorem parseNumber_falsy (v : JSVal) (h : jsFalsy v = true) : parseNumber v = none := by
  unfold parseNumber
  simp [h]

theorem cacheLookup_erase (key : String) (c : Cache) :
    cacheLookup key (cacheErase key c) = none := by
  induction c with
  | nil => rfl
  | cons kv rest ih =>
    unfold cacheErase at *
    by_cases h : kv.1 = key
    · simpa [List.filter, h] using ih
    · have hne : (kv.1 != key) = true := by simpa using h
      simp only [List.filter, hne]
      unfold cacheLookup at *
      rw [List.lookup_cons]
      have : (key == kv.1) = false := by simpa using fun hh => h hh.symm
      simp [this, ih]

/-! ## C10 -/

/-- C10: every constructed `College` carries `ranking`, `tuition` and
`avg_sat` either absent or as a non-negative integer (string inputs are
stripped of all non-digit characters before parsing, so no negative value
survives), and every falsy numeric input - a literal `0` included - is
stored as absent rather than as `0`. -/
theorem college_numeric_fields_nonneg (d : CollegeInput) :
    (∀ n, (College.build d).ranking = some n → 0 ≤ n) ∧
    (∀ n, (College.build d).tuition = some n → 0 ≤ n) ∧
    (∀ n, (College.build d).avg_sat = some n → 0 ≤ n) ∧
    (jsFalsy d.ranking = true → (College.build d).ranking = none) ∧
    (jsFalsy d.tuition = true → (College.build d).tuition = none) ∧
    (jsFalsy d.avg_sat = true → (College.build d).avg_sat = none) ∧
    (College.build { d with tuition := JSVal.num 0 }).tuition = none := by
  refine ⟨parseNumber_nonneg _, parseNumber_nonneg _, parseNumber_nonneg _,
    fun h => parseNumber_falsy _ h, fun h => parseNumber_falsy _ h,
    fun h => parseNumber_falsy _ h, ?_⟩
  exact parseNumber_falsy (JSVal.num 0) rfl

/-- C10 witness: the string input `"-$5,000"` is stored as `5000`, a
non-negative integer. -/
theorem college_numeric_fields_nonneg_witness :
    (College.build { tuition := JSVal.str "-$5,000" }).tuition = some 5000 ∧
    (0 : Int) ≤ 5000 :=
  ⟨by decide,
   (college_numeric_fields_nonneg { tuition := JSVal.str "-$5,000" }).2.1 5000 (by decide)⟩

/-! ## C3 -/

/-- C3: `getFromCache` returns the stored data iff the entry is fresh
(`now - timestamp < 600000` ms); a stale entry yields absent and is
removed from the cache, so a stale entry is never observable. -/
theorem cache_get_iff_fresh (c : Cache) (now : Int) (key : String) (e : CacheEntry)
    (he : cacheLookup key c = some e) :
    ((getFromCache c now key).1 = some e.data ↔ now - e.timestamp < 600000) ∧
    (¬ now - e.timestamp < 600000 →
      (getFromCache c now key).1 = none ∧
      cacheLookup key (getFromCache c now key).2 = none) := by
  have hget : getFromCache c now key =
      if now - e.timestamp < cacheTimeout then (some e.data, c)
      else (none, cacheErase key c) := by
    unfold getFromCache
    rw [he]
  rw [show cacheTimeout = (600000 : Int) from by decide] at hget
  constructor
  · rw [hget]
    split_ifs with hfresh
    · simp [hfresh]
    · simp [hfresh]
  · intro hstale
    rw [hget, if_neg hstale]
    exact ⟨rfl, cacheLookup_erase key c⟩

/-- C3 witness: a fresh entry is returned unchanged. -/
theorem cache_get_iff_fresh_witness :
    (getFromCache [("k", ⟨[], 0⟩)] 0 "k").1 = some [] :=
  (cache_get_iff_fresh [("k", ⟨[], 0⟩)] 0 "k" ⟨[], 0⟩ (by rfl)).1.mpr (by norm_num)

/-! ## C9 -/

/-- C9 counterexample: when the per-intent processing throws, the history
after the call holds only the user turn - the apology is sent and returned
but never appended to the history, contrary to the claim that the
conversation history still records both halves of the turn. -/
theorem processMessage_error_history_counterexample :
    (processMessage [] "hi" (Except.error ())).history = [⟨"user", "hi"⟩] ∧
    (processMessage [] "hi" (Except.error ())).response = errorResponse ∧
    ∀ m ∈ (processMessage [] "hi" (Except.error ())).history, m.role ≠ "assistant" := by
  refine ⟨rfl, rfl, ?_⟩
  decide

/-- C9 (amended): any exception escaping the per-intent processing is
caught at the outermost handler and converted into the fixed apology
string, which is sent and returned; the history keeps the user half of the
failed turn (the assistant apology is not recorded); and every outcome,
failing or not, ends with exactly one outbound response message. -/
theorem processMessage_failure_handling (hist : List ChatMsg) (msg : String) :
    processMessage hist msg (Except.error ()) =
      ⟨hist ++ [⟨"user", msg⟩], [errorResponse], errorResponse⟩ ∧
    (∀ outcome, (processMessage hist msg outcome).sent =
      [(processMessage hist msg outcome).response]) := by
  refine ⟨rfl, ?_⟩
  intro outcome
  cases outcome <;> rfl

/-! ## C4 -/

/-- Budget-filter counterexample data: a college with no listed tuition. -/
def collegeNoTuition : College :=
  { name := "A", location := "X", ranking := none, tuition := none,
    acceptance_rate := none, avg_sat := none, avg_gpa := none,
    majors := [], description := "" }

/-- Budget-filter counterexample data: a college over any small budget. -/
def collegeExpensive : College :=
  { name := "B", location := "Y", ranking := none, tuition := some 100000,
    acceptance_rate := none, avg_sat := none, avg_gpa := none,
    majors := [], description := "" }

/-- C4 counterexample: with budget 50000, a college with absent tuition
and one with tuition 100000, no college has tuition within the budget, so
the claim's reading keeps the unfiltered pair - but the code's filter
passes the tuition-less college, returning it alone. -/
theorem budget_filter_counterexample :
    budgetFilterStep [collegeNoTuition, collegeExpensive] (some 50000) =
      [collegeNoTuition] ∧
    budgetFilterStepClaim [collegeNoTuition, collegeExpensive] (some 50000) =
      [collegeNoTuition, collegeExpensive] ∧
    budgetFilterStep [collegeNoTuition, collegeExpensive] (some 50000) ≠
      budgetFilterStepClaim [collegeNoTuition, collegeExpensive] (some 50000) := by
  refine ⟨by decide, by decide, by decide⟩

/-- C4 (amended): the budget filter also passes colleges whose tuition is
absent (or zero, hence falsy); with that predicate it keeps exactly the
passing colleges when any passes and the whole list otherwise, and it
never turns a non-empty list into an empty one. -/
theorem budget_filter_never_empties (colleges : List College) (budget : Option Int)
    (h : colleges ≠ []) :
    budgetFilterStep colleges budget ≠ [] ∧
    (∀ b, budget = some b → b ≠ 0 →
      budgetFilterStep colleges budget =
        (if (colleges.filter (fun c =>
              !truthyI c.tuition || (c.tuition.getD 0 ≤ b))).length > 0 then
          colleges.filter (fun c => !truthyI c.tuition || (c.tuition.getD 0 ≤ b))
        else colleges)) := by
  constructor
  · cases budget with
    | none => simp only [budgetFilterStep]; exact h
    | some b =>
      simp only [budgetFilterStep]
      split_ifs with hb hlen
      · intro hnil
        rw [hnil] at hlen
        simp at hlen
      · exact h
      · exact h
  · intro b hb hbne
    subst hb
    simp only [budgetFilterStep]
    rw [if_pos hbne]

/-- C4 witness: a singleton over-budget list is kept rather than emptied. -/
theorem budget_filter_never_empties_witness :
    budgetFilterStep [collegeExpensive] (some 50000) ≠ [] :=
  (budget_filter_never_empties [collegeExpensive] (some 50000) (by decide)).1

/-! ## C2 -/

theorem runChain_skip (front rest : List ProviderOutcome)
    (h : ∀ p ∈ front, providerFailedOrEmpty p = true) :
    runChain (front ++ rest) =
      ((runChain rest).1, front.length + (runChain rest).2) := by
  induction front with
  | nil => simp
  | cons p front ih =>
    have hp := h p (by simp)
    have hrest : ∀ q ∈ front, providerFailedOrEmpty q = true :=
      fun q hq => h q (by simp [hq])
    cases p with
    | err =>
      simp only [List.cons_append, runChain, List.append_eq]
      rw [ih hrest]
      simp only [Prod.mk.injEq, List.length_cons, true_and]
      omega
    | ok r =>
      have hre : r.isEmpty = true := hp
      simp only [List.cons_append, runChain, hre, if_true, List.append_eq]
      rw [ih hrest]
      simp only [Prod.mk.injEq, List.length_cons, true_and]
      omega

theorem cacheLookup_setCache (c : Cache) (now : Int) (key : String)
    (data : List RawResult) :
    cacheLookup key (setCache c now key data) = some ⟨data, now⟩ := by
  unfold setCache cacheLookup
  rw [List.lookup_cons]
  simp

/-- C2: on a cache miss the provider chain is tried in order; the first
provider returning a non-empty list wins - exactly the providers up to and
including it are invoked, the outcomes of the later providers are
irrelevant to the result, the chain returns the winner's output, and that
output is cached under the lowercased query key.  A provider that throws
or returns an empty list just moves the chain on, and when every provider
fails or returns empty the chain returns the empty list (it never
raises). -/
theorem search_chain_first_nonempty_wins (st : Cache) (now : Int) (query : String)
    (front rest rest' : List ProviderOutcome)
    (hfront : ∀ p ∈ front, providerFailedOrEmpty p = true)
    (r : List RawResult) (hr : r ≠ [])
    (hmiss : (getFromCache st now (toLowerString query)).1 = none) :
    (runChain (front ++ ProviderOutcome.ok r :: rest)).1 = r ∧
    (runChain (front ++ ProviderOutcome.ok r :: rest)).2 = front.length + 1 ∧
    runChain (front ++ ProviderOutcome.ok r :: rest') =
      runChain (front ++ ProviderOutcome.ok r :: rest) ∧
    (searchUniversities st now query (front ++ ProviderOutcome.ok r :: rest)).1 = r ∧
    cacheLookup (toLowerString query)
      (searchUniversities st now query (front ++ ProviderOutcome.ok r :: rest)).2 =
      some ⟨r, now⟩ ∧
    (∀ provs, (∀ p ∈ provs, providerFailedOrEmpty p = true) →
      (searchUniversities st now query provs).1 = []) := by
  have hre : r.isEmpty = false := by
    cases r with
    | nil => exact absurd rfl hr
    | cons a l => rfl
  have hwin : ∀ tail, runChain (front ++ ProviderOutcome.ok r :: tail) =
      (r, front.length + 1) := by
    intro tail
    rw [runChain_skip front _ hfront]
    simp [runChain, hre]
  have hchain := hwin rest
  have hsearch : searchUniversities st now query (front ++ ProviderOutcome.ok r :: rest) =
      (r, setCache (getFromCache st now (toLowerString query)).2 now (toLowerString query) r) := by
    simp [searchUniversities, hmiss, hchain, hre]
  refine ⟨by rw [hchain], by rw [hchain], by rw [hwin, hwin], by rw [hsearch],
    by rw [hsearch]; exact cacheLookup_setCache _ now _ r, ?_⟩
  intro provs hprovs
  have hall : runChain provs = (([] : List RawResult), provs.length) := by
    have := runChain_skip provs [] hprovs
    simpa using this
  simp [searchUniversities, hmiss, hall]

/-- Concrete raw result for the C2 witness. -/
def rawEx : RawResult := { title := "t", snippet := "s", url := "u" }

/-- C2 witness: one failing provider followed by a successful one. -/
theorem search_chain_first_nonempty_wins_witness :
    (searchUniversities [] 0 "Q"
      [ProviderOutcome.err, ProviderOutcome.ok [rawEx]]).1 = [rawEx] :=
  (search_chain_first_nonempty_wins [] 0 "Q" [ProviderOutcome.err] [] []
    (by intro p hp; simp at hp; subst hp; rfl)
    [rawEx] (by simp) (by rfl)).2.2.2.1

/-! ## C5 -/

theorem foldl_argmax (s : IntentType → Nat) (l : List IntentType)
    (init : IntentType) :
    ∀ j, (j = init ∨ j ∈ l) →
      s j ≤ s (l.foldl (fun a b => if s a > s b then a else b) init) := by
  induction l generalizing init with
  | nil =>
    rintro j (rfl | hj)
    · exact le_refl _
    · simp at hj
  | cons x xs ih =>
    intro j hj
    rw [List.foldl_cons]
    have hstep : s init ≤ s (if s init > s x then init else x) ∧
        s x ≤ s (if s init > s x then init else x) := by
      split_ifs with hcmp
      · exact ⟨le_refl _, le_of_lt hcmp⟩
      · exact ⟨le_of_not_lt hcmp, le_refl _⟩
    rcases hj with rfl | hj
    · exact le_trans hstep.1 (ih _ _ (Or.inl rfl))
    · rcases List.mem_cons.mp hj with rfl | hmem
      · exact le_trans hstep.2 (ih _ _ (Or.inl rfl))
      · exact ih _ j (Or.inr hmem)

/-- C5: the detected intent is `college_match` whenever its keyword score
is non-zero or every intent scored zero (so a message matching no keyword
resolves to `college_match`); otherwise the detected intent carries a
maximal keyword score. -/
theorem detectIntent_spec (m : String) :
    ((intentScore m .college_match ≠ 0 ∨ ∀ i, intentScore m i = 0) →
      detectIntent m = .college_match) ∧
    (intentScore m .college_match = 0 →
      ∀ j, intentScore m j ≤ intentScore m (detectIntent m)) := by
  constructor
  · intro hcm
    unfold detectIntent
    rcases hcm with hnz | hzero
    · rw [if_pos (Or.inl (Nat.pos_of_ne_zero hnz))]
    · rw [if_pos (Or.inr (by simp [hzero]))]
  · intro hcm j
    unfold detectIntent
    split_ifs with hcond
    · rcases hcond with h | h
      · omega
      · rw [Nat.max_eq_zero_iff, Nat.max_eq_zero_iff, Nat.max_eq_zero_iff] at h
        obtain ⟨⟨⟨h1, h2⟩, h3⟩, h4⟩ := h
        cases j <;> omega
    · unfold topScoredIntent
      exact foldl_argmax (intentScore m) _ IntentType.college_match j
        (by cases j <;> simp)

/-! ## C6 -/

theorem updateProfile_gpa (p : UserProfile) (info : ExtractedInfo) :
    (updateProfile p info).gpa =
      (match info.gpa with
       | some g => if g ≠ 0 ∧ 0 ≤ g ∧ g ≤ 4 then some g else p.gpa
       | none => p.gpa) := by
  unfold updateProfile
  cases info.gpa <;> cases info.sat_score <;> cases info.act_score <;>
    cases info.interests <;> cases info.location_preference <;> cases info.budget <;>
    (try dsimp only) <;> (try split_ifs) <;> rfl

theorem updateProfile_sat (p : UserProfile) (info : ExtractedInfo) :
    (updateProfile p info).sat_score =
      (match info.sat_score with
       | some s => if s ≠ 0 ∧ 400 ≤ s ∧ s ≤ 1600 then some s else p.sat_score
       | none => p.sat_score) := by
  unfold updateProfile
  cases info.gpa <;> cases info.sat_score <;> cases info.act_score <;>
    cases info.interests <;> cases info.location_preference <;> cases info.budget <;>
    (try dsimp only) <;> (try split_ifs) <;> rfl

theorem updateProfile_act (p : UserProfile) (info : ExtractedInfo) :
    (updateProfile p info).act_score =
      (match info.act_score with
       | some a => if a ≠ 0 ∧ 1 ≤ a ∧ a ≤ 36 then some a else p.act_score
       | none => p.act_score) := by
  unfold updateProfile
  cases info.gpa <;> cases info.sat_score <;> cases info.act_score <;>
    cases info.interests <;> cases info.location_preference <;> cases info.budget <;>
    (try dsimp only) <;> (try split_ifs) <;> rfl

theorem updateProfile_major (p : UserProfile) (info : ExtractedInfo) :
    (updateProfile p info).major_preference =
      (match info.interests with
       | some l => mergeNames p.major_preference l
       | none => p.major_preference) := by
  unfold updateProfile
  cases info.gpa <;> cases info.sat_score <;> cases info.act_score <;>
    cases info.interests <;> cases info.location_preference <;> cases info.budget <;>
    (try dsimp only) <;> (try split_ifs) <;> rfl

theorem updateProfile_loc (p : UserProfile) (info : ExtractedInfo) :
    (updateProfile p info).location_preference =
      (match info.location_preference with
       | some l => mergeNames p.location_preference l
       | none => p.location_preference) := by
  unfold updateProfile
  cases info.gpa <;> cases info.sat_score <;> cases info.act_score <;>
    cases info.interests <;> cases info.location_preference <;> cases info.budget <;>
    (try dsimp only) <;> (try split_ifs) <;> rfl

/-- C6 counterexample: GPA `0` lies in the documented range 0.0-4.0, yet
the merge drops it (the JS truthiness gate rejects `0` before the range
test), so "stored exactly when within its documented range" fails. -/
theorem updateProfile_gpa_zero_counterexample :
    (updateProfile UserProfile.empty { gpa := some 0 }).gpa = none ∧
    (0 : ℚ) ≥ 0 ∧ (0 : ℚ) ≤ 4 := by
  refine ⟨?_, le_refl 0, by norm_num⟩
  rw [updateProfile_gpa]
  norm_num [UserProfile.empty]

/-- C6 (amended): a numeric field merges exactly when it is truthy
(non-zero) and within its documented range - gpa in (0.0, 4.0], sat in
[400, 1600], act in [1, 36]; a value outside that gate is silently dropped,
leaving the field at its previous value and not blocking the other fields
of the same message (each field's merge equation below holds regardless of
the other fields); and a merge that starts from a range-valid profile
leaves every present numeric field range-valid. -/
theorem updateProfile_numeric_ranges (p : UserProfile) (info : ExtractedInfo)
    (hg : ∀ g, p.gpa = some g → 0 < g ∧ g ≤ 4)
    (hs : ∀ s, p.sat_score = some s → 400 ≤ s ∧ s ≤ 1600)
    (ha : ∀ a, p.act_score = some a → 1 ≤ a ∧ a ≤ 36) :
    (∀ g, info.gpa = some g → 0 < g → g ≤ 4 →
      (updateProfile p info).gpa = some g) ∧
    (∀ g, info.gpa = some g → ¬(0 < g ∧ g ≤ 4) →
      (updateProfile p info).gpa = p.gpa) ∧
    (∀ s, info.sat_score = some s → 400 ≤ s → s ≤ 1600 →
      (updateProfile p info).sat_score = some s) ∧
    (∀ s, info.sat_score = some s → ¬(400 ≤ s ∧ s ≤ 1600) →
      (updateProfile p info).sat_score = p.sat_score) ∧
    (∀ a, info.act_score = some a → 1 ≤ a → a ≤ 36 →
      (updateProfile p info).act_score = some a) ∧
    (∀ a, info.act_score = some a → ¬(1 ≤ a ∧ a ≤ 36) →
      (updateProfile p info).act_score = p.act_score) ∧
    (∀ g, (updateProfile p info).gpa = some g → 0 < g ∧ g ≤ 4) ∧
    (∀ s, (updateProfile p info).sat_score = some s → 400 ≤ s ∧ s ≤ 1600) ∧
    (∀ a, (updateProfile p info).act_score = some a → 1 ≤ a ∧ a ≤ 36) := by
  refine ⟨?_, ?_, ?_, ?_, ?_, ?_, ?_, ?_, ?_⟩
  · intro g hgg h1 h2
    rw [updateProfile_gpa, hgg]
    dsimp only
    rw [if_pos ⟨ne_of_gt h1, le_of_lt h1, h2⟩]
  · intro g hgg hnot
    rw [updateProfile_gpa, hgg]
    dsimp only
    rw [if_neg]
    rintro ⟨hne, hle, h4⟩
    exact hnot ⟨lt_of_le_of_ne hle (Ne.symm hne), h4⟩
  · intro s hss h1 h2
    rw [updateProfile_sat, hss]
    dsimp only
    rw [if_pos ⟨by omega, h1, h2⟩]
  · intro s hss hnot
    rw [updateProfile_sat, hss]
    dsimp only
    rw [if_neg]
    rintro ⟨hne, hle, hhi⟩
    exact hnot ⟨hle, hhi⟩
  · intro a haa h1 h2
    rw [updateProfile_act, haa]
    dsimp only
    rw [if_pos ⟨by omega, h1, h2⟩]
  · intro a haa hnot
    rw [updateProfile_act, haa]
    dsimp only
    rw [if_neg]
    rintro ⟨hne, hle, hhi⟩
    exact hnot ⟨hle, hhi⟩
  · intro g hres
    rw [updateProfile_gpa] at hres
    cases hcase : info.gpa with
    | none => rw [hcase] at hres; exact hg g hres
    | some g0 =>
      rw [hcase] at hres
      dsimp only at hres
      split_ifs at hres with hcond
      · obtain ⟨hne, hle, h4⟩ := hcond
        obtain rfl : g0 = g := by injection hres
        exact ⟨lt_of_le_of_ne hle (Ne.symm hne), h4⟩
      · exact hg g hres
  · intro s hres
    rw [updateProfile_sat] at hres
    cases hcase : info.sat_score with
    | none => rw [hcase] at hres; exact hs s hres
    | some s0 =>
      rw [hcase] at hres
      dsimp only at hres
      split_ifs at hres with hcond
      · obtain rfl : s0 = s := by injection hres
        exact ⟨hcond.2.1, hcond.2.2⟩
      · exact hs s hres
  · intro a hres
    rw [updateProfile_act] at hres
    cases hcase : info.act_score with
    | none => rw [hcase] at hres; exact ha a hres
    | some a0 =>
      rw [hcase] at hres
      dsimp only at hres
      split_ifs at hres with hcond
      · obtain rfl : a0 = a := by injection hres
        exact ⟨hcond.2.1, hcond.2.2⟩
      · exact ha a hres

/-- C6 witness: an in-range GPA merges into an empty profile. -/
theorem updateProfile_numeric_ranges_witness :
    (updateProfile UserProfile.empty { gpa := some 3 }).gpa = some 3 :=
  (updateProfile_numeric_ranges UserProfile.empty { gpa := some 3 }
    (fun g h => absurd h (by simp [UserProfile.empty]))
    (fun s h => absurd h (by simp [UserProfile.empty]))
    (fun a h => absurd h (by simp [UserProfile.empty]))).1
    3 rfl (by norm_num) (by norm_num)

/-! ## C7 -/

/-- No two entries of the list agree after lowercasing. -/
def ciDistinct (l : List String) : Prop :=
  List.Pairwise (fun a b => lowEq a b = false) l

/-- C7 counterexample: one extracted array with case-variant duplicates is
merged as-is (the dedup filter only compares against entries already in
the profile), so the profile ends with two case-insensitively equal
entries. -/
theorem merge_within_batch_duplicates_counterexample :
    (updateProfile UserProfile.empty
      { interests := some ["CS", "cs"] }).major_preference = ["CS", "cs"] ∧
    lowEq "CS" "cs" = true := by
  constructor
  · rw [updateProfile_major]
    decide
  · decide

theorem mergeNames_ci (existing new : List String)
    (h1 : ciDistinct existing) (h2 : ciDistinct new) :
    ciDistinct (mergeNames existing new) := by
  unfold mergeNames ciDistinct at *
  rw [List.pairwise_append]
  refine ⟨h1, List.Pairwise.sublist (List.filter_sublist _) h2, ?_⟩
  intro a ha b hb
  have hbmem := List.mem_filter.mp hb
  have hany := hbmem.2
  simp only [Bool.not_eq_true'] at hany
  rw [List.any_eq_false] at hany
  simpa using hany a ha

/-- C7 (amended): the merge deduplicates a new batch only against the
entries already stored, so `major_preference` and `location_preference`
remain case-insensitive duplicate-free ordered sets provided every
extracted array is itself case-insensitively duplicate-free; an array with
internal case-variant duplicates is appended as-is. -/
theorem updateProfile_ci_dedup (p : UserProfile) (info : ExtractedInfo)
    (hmp : ciDistinct p.major_preference) (hlp : ciDistinct p.location_preference)
    (hi : ∀ l, info.interests = some l → ciDistinct l)
    (hl : ∀ l, info.location_preference = some l → ciDistinct l) :
    ciDistinct (updateProfile p info).major_preference ∧
    ciDistinct (updateProfile p info).location_preference := by
  constructor
  · rw [updateProfile_major]
    cases hcase : info.interests with
    | none => exact hmp
    | some l => exact mergeNames_ci _ _ hmp (hi l hcase)
  · rw [updateProfile_loc]
    cases hcase : info.location_preference with
    | none => exact hlp
    | some l => exact mergeNames_ci _ _ hlp (hl l hcase)

/-- C7 witness: merging a duplicate-free batch into the empty profile
leaves both preference lists duplicate-free. -/
theorem updateProfile_ci_dedup_witness :
    ciDistinct (updateProfile UserProfile.empty
      { interests := some ["math", "Art"] }).major_preference ∧
    ciDistinct (updateProfile UserProfile.empty
      { interests := some ["math", "Art"] }).location_preference :=
  updateProfile_ci_dedup UserProfile.empty { interests := some ["math", "Art"] }
    (by simp [UserProfile.empty, ciDistinct])
    (by simp [UserProfile.empty, ciDistinct])
    (fun l h => by
      injection h with hh
      subst hh
      simp [ciDistinct]
      decide)
    (fun l h => Option.noConfusion h)

/-! ## C8 -/

/-- C8 counterexample: the static search for "computer science" also
returns the California Institute of Technology (its majors list contains
"Computer Science"), which the claim's six-college list omits. -/
theorem staticDataSearch_cs_includes_caltech :
    "California Institute of Technology" ∈
      (staticDataSearch "computer science").map (fun r => r.title) := by
  decide

/-- C8 (amended): with every external provider failed or empty, the static
search for the query "computer science" returns exactly the eight seed
entries whose name/location/majors/description contain a query token
(case-insensitive substring test) - MIT, Stanford, Caltech, Berkeley, CMU,
Georgia Tech, UT Austin and UW, in seed order - each carrying its seed
record as direct `college_data`. -/
theorem staticDataSearch_cs_result :
    (staticDataSearch "computer science").map (fun r => r.title) =
      ["Massachusetts Institute of Technology", "Stanford University",
       "California Institute of Technology",
       "University of California, Berkeley", "Carnegie Mellon University",
       "Georgia Institute of Technology", "University of Texas at Austin",
       "University of Washington"] ∧
    (staticDataSearch "computer science").all
      (fun r => r.college_data.isSome) = true := by
  constructor
  · decide
  · decide

/-- C5 witness: a message matching no keyword at all resolves to
`college_match`. -/
theorem detectIntent_spec_witness :
    detectIntent "asdf1234" = IntentType.college_match :=
  (detectIntent_spec "asdf1234").1 (Or.inr (by intro i; cases i <;> decide))

/-! ## C1 -/

theorem clamp01_le (x : ℚ) (hx : x ≤ 1) : 0 ≤ max 0 x ∧ max 0 x ≤ 1 :=
  ⟨le_max_left 0 x, max_le (by norm_num) hx⟩

theorem academic_fit_bounds (c : College) (p : UserProfile) :
    ∀ v, calculateAcademicFit c p = some v → 0 ≤ v ∧ v ≤ 1 := by
  intro v h
  have hg0 : (0 : ℚ) ≤ |c.avg_gpa.getD 0 - p.gpa.getD 0| / 2 := by positivity
  have hs0 : (0 : ℚ) ≤
      |((c.avg_sat.getD 0 : ℤ) : ℚ) - ((p.sat_score.getD 0 : ℤ) : ℚ)| / 400 := by
    positivity
  obtain ⟨hA0, hA1⟩ := clamp01_le (1 - |c.avg_gpa.getD 0 - p.gpa.getD 0| / 2)
    (by linarith)
  obtain ⟨hB0, hB1⟩ := clamp01_le
    (1 - |((c.avg_sat.getD 0 : ℤ) : ℚ) - ((p.sat_score.getD 0 : ℤ) : ℚ)| / 400)
    (by linarith)
  unfold calculateAcademicFit at h
  split at h
  · exact absurd h (by simp)
  · dsimp only at h
    by_cases hg : (truthyQ p.gpa && truthyQ c.avg_gpa) = true
    · by_cases hs : (truthyI p.sat_score && truthyI c.avg_sat) = true
      · rw [if_pos hg, if_pos hs] at h
        norm_num at h
        subst h
        constructor
        · apply div_nonneg (by linarith) (by norm_num)
        · rw [div_le_one (by norm_num)]
          linarith
      · rw [if_pos hg, if_neg hs] at h
        norm_num at h
        subst h
        exact ⟨hA0, hA1⟩
    · by_cases hs : (truthyI p.sat_score && truthyI c.avg_sat) = true
      · rw [if_neg hg, if_pos hs] at h
        norm_num at h
        subst h
        exact ⟨hB0, hB1⟩
      · rw [if_neg hg, if_neg hs] at h
        norm_num at h
        exact absurd h (by simp)

theorem major_fit_bounds (c : College) (p : UserProfile) :
    ∀ v, calculateMajorFit c p = some v → 0 ≤ v ∧ v ≤ 1 := by
  intro v h
  unfold calculateMajorFit at h
  split at h
  · exact absurd h (by simp)
  · next hne =>
    dsimp only at h
    simp only [Option.some.injEq] at h
    subst h
    have hpos : 0 < p.major_preference.length := by
      cases hmp : p.major_preference with
      | nil => exact absurd (by simp [hmp]) hne
      | cons a l => simp [hmp]
    have hposQ : (0 : ℚ) < (p.major_preference.length : ℚ) := by
      exact_mod_cast hpos
    constructor
    · positivity
    · rw [div_le_one hposQ]
      exact_mod_cast List.countP_le_length _

theorem location_fit_bounds (c : College) (p : UserProfile) :
    ∀ v, calculateLocationFit c p = some v → 0 ≤ v ∧ v ≤ 1 := by
  intro v h
  unfold calculateLocationFit at h
  split at h
  · exact absurd h (by simp)
  · split at h <;> simp only [Option.some.injEq] at h <;> subst h <;> norm_num

theorem affordability_bounds (c : College) (p : UserProfile)
    (ht : ∀ t, c.tuition = some t → 0 ≤ t)
    (hb : ∀ b, p.budget = some b → 0 < b) :
    ∀ v, calculateAffordabilityScore c p = some v → 0 ≤ v ∧ v ≤ 1 := by
  intro v h
  unfold calculateAffordabilityScore at h
  split at h
  · exact absurd h (by simp)
  · next hcond =>
    cases hpb : p.budget with
    | none => exact absurd (by simp [truthyI, hpb]) hcond
    | some b =>
    cases hct : c.tuition with
    | none => exact absurd (by simp [truthyI, hct]) hcond
    | some t =>
    have htne : t ≠ 0 := by
      intro h0
      exact hcond (by simp [truthyI, hct, h0])
    have hbpos : 0 < b := hb b hpb
    have htpos : 0 < t := lt_of_le_of_ne (ht t hct) (Ne.symm htne)
    have htQ : (0 : ℚ) < ((t : ℤ) : ℚ) := by exact_mod_cast htpos
    have hbQ : (0 : ℚ) < ((b : ℤ) : ℚ) := by exact_mod_cast hbpos
    rw [hpb, hct] at h
    dsimp only [Option.getD] at h
    split_ifs at h with hle
    · simp only [Option.some.injEq] at h
      subst h
      constructor
      · apply le_min (by norm_num)
        have h1 : (1 : ℚ) ≤ ((b : ℤ) : ℚ) / ((t : ℤ) : ℚ) := (one_le_div htQ).mpr hle
        linarith
      · exact min_le_left _ _
    · simp only [Option.some.injEq] at h
      subst h
      constructor
      · exact le_max_left _ _
      · apply max_le (by norm_num)
        have hnn : (0 : ℚ) ≤ (((t : ℤ) : ℚ) - ((b : ℤ) : ℚ)) / ((b : ℤ) : ℚ) := by
          apply div_nonneg _ (le_of_lt hbQ)
          push_neg at hle
          linarith
        linarith

theorem addDim_bounds (acc : ℚ × ℚ) (o : Option ℚ) (w : ℚ) (hw : 0 ≤ w)
    (h1 : 0 ≤ acc.1) (h2 : acc.1 ≤ acc.2)
    (ho : ∀ v, o = some v → 0 ≤ v ∧ v ≤ 1) :
    0 ≤ (addDim acc o w).1 ∧ (addDim acc o w).1 ≤ (addDim acc o w).2 := by
  cases o with
  | none => exact ⟨h1, h2⟩
  | some s =>
    obtain ⟨hs0, hs1⟩ := ho s rfl
    unfold addDim
    dsimp only
    constructor
    · nlinarith [mul_nonneg hs0 hw]
    · nlinarith [mul_le_of_le_one_left hw hs1]

/-- C1: the fit score is always in [0, 1]; when no dimension applies it is
exactly 0.5; and each sub-score (academic, major, location, affordability)
is individually in [0, 1] and, when its required inputs are absent
(`none`), contributes to neither numerator nor denominator - with all four
absent the weight sum is 0 and the 0.5 default fires.  The hypotheses pin
the documented data-model invariants: a constructed college's tuition is
never negative (see the C10 theorem) and a profile budget, when present,
is a positive number. -/
theorem fit_score_unit_interval (c : College) (p : UserProfile)
    (ht : ∀ t, c.tuition = some t → 0 ≤ t)
    (hb : ∀ b, p.budget = some b → 0 < b) :
    0 ≤ scoreCollege c p ∧ scoreCollege c p ≤ 1 ∧
    (calculateAcademicFit c p = none → calculateMajorFit c p = none →
      calculateLocationFit c p = none → calculateAffordabilityScore c p = none →
      scoreCollege c p = 1/2) ∧
    (∀ v, calculateAcademicFit c p = some v → 0 ≤ v ∧ v ≤ 1) ∧
    (∀ v, calculateMajorFit c p = some v → 0 ≤ v ∧ v ≤ 1) ∧
    (∀ v, calculateLocationFit c p = some v → 0 ≤ v ∧ v ≤ 1) ∧
    (∀ v, calculateAffordabilityScore c p = some v → 0 ≤ v ∧ v ≤ 1) := by
  have hA := academic_fit_bounds c p
  have hM := major_fit_bounds c p
  have hL := location_fit_bounds c p
  have hF := affordability_bounds c p ht hb
  have k1 := addDim_bounds ((0 : ℚ), (0 : ℚ)) (calculateAcademicFit c p) (4/10)
    (by norm_num) (by norm_num) (by norm_num) hA
  have k2 := addDim_bounds _ (calculateMajorFit c p) (3/10) (by norm_num)
    k1.1 k1.2 hM
  have k3 := addDim_bounds _ (calculateLocationFit c p) (2/10) (by norm_num)
    k2.1 k2.2 hL
  have k4 := addDim_bounds _ (calculateAffordabilityScore c p) (1/10) (by norm_num)
    k3.1 k3.2 hF
  refine ⟨?_, ?_, ?_, hA, hM, hL, hF⟩
  · unfold scoreCollege
    dsimp only
    split_ifs with hpos
    · exact div_nonneg k4.1 (le_of_lt hpos)
    · norm_num
  · unfold scoreCollege
    dsimp only
    split_ifs with hpos
    · rw [div_le_one hpos]
      exact k4.2
    · norm_num
  · intro h1 h2 h3 h4
    unfold scoreCollege
    rw [h1, h2, h3, h4]
    norm_num [addDim]

/-- Concrete college for the C1 witness. -/
def collegeW : College :=
  { name := "W", location := "Campus, CA", ranking := some 10,
    tuition := some 30000, acceptance_rate := some (1/5), avg_sat := some 1450,
    avg_gpa := some (38/10), majors := ["Computer Science"],
    description := "w" }

/-- Concrete profile for the C1 witness. -/
def profileW : UserProfile :=
  { gpa := some 3, sat_score := some 1400, budget := some 50000,
    major_preference := ["computer science"], location_preference := ["CA"] }

/-- C1 witness: a fully populated college/profile pair scores in [0, 1]. -/
theorem fit_score_unit_interval_witness :
    0 ≤ scoreCollege collegeW profileW ∧ scoreCollege collegeW profileW ≤ 1 :=
  ⟨(fit_score_unit_interval collegeW profileW
      (by intro t h; simp [collegeW] at h; omega)
      (by intro b h; simp [profileW] at h; omega)).1,
   (fit_score_unit_interval collegeW profileW
      (by intro t h; simp [collegeW] at h; omega)
      (by intro b h; simp [profileW] at h; omega)).2.1⟩

end UniGuide
